import Mathlib

/-!
Shallow embedding of the inventory data model in `items/models.py`:
measure units, material assets, amount constraints with an
infinity-sentinel convention, signed document types, and the two
self-referencing hierarchies (warehouses, contractor groups).
-/

namespace PDM

/-- Extended amount values: the accessors of `AmountConstraints` return either
a finite (big) integer or the mathematical infinity `math.inf`. -/
inductive ExtInt where
  | fin : Int → ExtInt
  | inf : ExtInt
  deriving DecidableEq, Repr

/-- Strict order on extended amounts: `inf` is strictly greater than every
finite value, mirroring how Python's `math.inf` compares with integers. -/
def ExtInt.blt : ExtInt → ExtInt → Bool
  | ExtInt.fin a, ExtInt.fin b => a < b
  | ExtInt.fin _, ExtInt.inf => true
  | ExtInt.inf, _ => false

/-- Predicate mirroring Python's `math.isinf` on the extended amount domain. -/
def ExtInt.isInf : ExtInt → Bool
  | ExtInt.fin _ => false
  | ExtInt.inf => true

/-- Record type for `AmountConstraints`: a foreign key to a material asset and
the two stored `BigIntegerField` bounds (`_min_amount`, `_max_amount`),
both defaulting to the sentinel `-1`. -/
structure AmountConstraints where
  material_asset : Nat
  _min_amount : Int
  _max_amount : Int
  deriving DecidableEq, Repr

/-- Constructor for a fresh `AmountConstraints` row with neither bound
supplied: both stored fields take their declared default `-1`. -/
def AmountConstraints.mkDefault (asset : Nat) : AmountConstraints :=
  { material_asset := asset, _min_amount := -1, _max_amount := -1 }

/-- Accessor `min_amount`: returns `inf` when the stored `_min_amount` is
negative, and the stored value otherwise. -/
def AmountConstraints.min_amount (c : AmountConstraints) : ExtInt :=
  if c._min_amount < 0 then ExtInt.inf else ExtInt.fin c._min_amount

/-- Setter for `min_amount`: an infinite value is stored as the sentinel `-1`,
any finite value is stored verbatim. -/
def AmountConstraints.set_min_amount (c : AmountConstraints) (v : ExtInt) :
    AmountConstraints :=
  match v with
  | ExtInt.inf => { c with _min_amount := -1 }
  | ExtInt.fin n => { c with _min_amount := n }

/-- Accessor `max_amount`: returns `inf` when the stored `_max_amount` is
negative, and the stored value otherwise. -/
def AmountConstraints.max_amount (c : AmountConstraints) : ExtInt :=
  if c._max_amount < 0 then ExtInt.inf else ExtInt.fin c._max_amount

/-- Setter for `max_amount`: an infinite value is stored as the sentinel `-1`,
any finite value is stored verbatim. -/
def AmountConstraints.set_max_amount (c : AmountConstraints) (v : ExtInt) :
    AmountConstraints :=
  match v with
  | ExtInt.inf => { c with _max_amount := -1 }
  | ExtInt.fin n => { c with _max_amount := n }

/-- The declared direction choices of `DocumentType`: `TYPES`, pairing each
admitted direction value with its display label. -/
def TYPES : List (Int × String) := [(-1, "Out"), (1, "In")]

/-- Record type for `DocumentType`: a unique name and an integer direction
restricted by the `choices=TYPES` declaration. -/
structure DocumentType where
  name : String
  direction : Int
  deriving DecidableEq, Repr

/-- Validation of the `direction` field against the declared choices, as the
framework applies it: the value must be a key of `TYPES`. -/
def validDirection (d : Int) : Bool :=
  TYPES.any (fun p => p.fst == d)

/-- String representation of a `DocumentType`: the dictionary built from
`TYPES` is looked up at the stored direction; a missing key (Python
`KeyError`) is modelled as `none`. -/
def DocumentType.str (d : DocumentType) : Option String :=
  (TYPES.find? (fun p => p.fst == d.direction)).map
    (fun p => d.name ++ " " ++ p.snd)

/-- Modelled from the spec: the repository records the rule only as the
comment "Just multiply amount and direction to get correct total amount";
the code computing inventory deltas is not yet implemented. The signed
delta of a movement is the document type's direction times the amount. -/
def signedDelta (d : DocumentType) (amount : Int) : Int :=
  d.direction * amount

/-- Record type for `MaterialAsset`: the unique part number, a display name
and a foreign key to a measure unit. -/
structure MaterialAsset where
  part_number : String
  name : String
  measure_unit : Nat
  deriving DecidableEq, Repr

/-- Pairwise distinctness of part numbers across a table of material assets. -/
def distinctPartNumbers : List MaterialAsset → Bool
  | [] => true
  | a :: rest =>
      (!rest.any (fun b => b.part_number == a.part_number)) &&
        distinctPartNumbers rest

/-- Modelled from the spec: `part_number` is declared `unique=True` and the
spec calls the part number the unique identifier of an asset; the database
enforcement is not repository code. Inserting an asset fails when its part
number is already present. -/
def insertAsset (db : List MaterialAsset) (a : MaterialAsset) :
    Option (List MaterialAsset) :=
  if db.any (fun b => b.part_number == a.part_number) then none
  else some (a :: db)

/-- Record type for a `Warehouse` node: an id, a unique name, and the
optional self-referencing parent foreign key. -/
structure Warehouse where
  id : Nat
  name : String
  parent : Option Nat
  deriving DecidableEq, Repr

/-- Root test for a warehouse node: a node with no parent is a root. -/
def Warehouse.isRoot (w : Warehouse) : Bool :=
  w.parent.isNone

/-- Modelled from the spec: the hierarchy is a self-referencing tree, so the
parent foreign key of every stored warehouse node, when present, resolves
to a warehouse node of the same table; the referential-integrity
enforcement is not repository code. -/
def warehouseWellFormed (db : List Warehouse) : Bool :=
  db.all (fun w =>
    match w.parent with
    | none => true
    | some p => db.any (fun v => v.id == p))

/-- Record type for a `ContractorGroup` node: an id, a unique name, and the
optional self-referencing parent foreign key. -/
structure ContractorGroup where
  id : Nat
  name : String
  parent : Option Nat
  deriving DecidableEq, Repr

/-- Root test for a contractor-group node: a node with no parent is a root. -/
def ContractorGroup.isRoot (g : ContractorGroup) : Bool :=
  g.parent.isNone

/-- Modelled from the spec: the contractor groups form a self-referencing
tree, so the parent foreign key of every stored group node, when present,
resolves to a group node of the same table; the referential-integrity
enforcement is not repository code. -/
def contractorGroupWellFormed (db : List ContractorGroup) : Bool :=
  db.all (fun g =>
    match g.parent with
    | none => true
    | some p => db.any (fun v => v.id == p))

/-- C5: a freshly created `AmountConstraints` row with neither bound supplied
stores the sentinel `-1` in both `_min_amount` and `_max_amount`, and both
accessors return infinity. -/
theorem default_constraints_unbounded (asset : Nat) :
    (AmountConstraints.mkDefault asset)._min_amount = -1 ∧
    (AmountConstraints.mkDefault asset)._max_amount = -1 ∧
    (AmountConstraints.mkDefault asset).min_amount = ExtInt.inf ∧
    (AmountConstraints.mkDefault asset).max_amount = ExtInt.inf :=
  ⟨rfl, rfl, rfl, rfl⟩

/-- C8: any negative stored bound, not only the sentinel `-1`, is exposed as
infinity: whenever `_min_amount < 0` the accessor `min_amount` returns
infinity, and whenever `_max_amount < 0` the accessor `max_amount` does. -/
theorem negative_bound_reads_as_infinity (c : AmountConstraints) :
    (c._min_amount < 0 → c.min_amount = ExtInt.inf) ∧
    (c._max_amount < 0 → c.max_amount = ExtInt.inf) := by
  constructor
  · intro hmin
    unfold AmountConstraints.min_amount
    rw [if_pos hmin]
  · intro hmax
    unfold AmountConstraints.max_amount
    rw [if_pos hmax]

/-- Witness for C8: the min conditional at the mixed record (-5, 7) and the
max conditional at the mixed record (3, -2). -/
theorem negative_bound_reads_as_infinity_witness :
    (AmountConstraints.mk 0 (-5) 7).min_amount = ExtInt.inf ∧
    (AmountConstraints.mk 1 3 (-2)).max_amount = ExtInt.inf :=
  ⟨(negative_bound_reads_as_infinity (AmountConstraints.mk 0 (-5) 7)).1
      (by decide),
    (negative_bound_reads_as_infinity (AmountConstraints.mk 1 3 (-2))).2
      (by decide)⟩

/-- C9: an unbounded minimum reads back as the very same positive infinity an
unbounded maximum reads back as, and that value is strictly greater than
every finite amount in the order of extended amounts. -/
theorem unbounded_min_is_positive_infinity (c d : AmountConstraints) (n : Int)
    (hc : c._min_amount < 0) (hd : d._max_amount < 0) :
    c.min_amount = ExtInt.inf ∧ c.min_amount = d.max_amount ∧
      ExtInt.blt (ExtInt.fin n) c.min_amount = true := by
  have h1 : c.min_amount = ExtInt.inf := by
    unfold AmountConstraints.min_amount
    rw [if_pos hc]
  have h2 : d.max_amount = ExtInt.inf := by
    unfold AmountConstraints.max_amount
    rw [if_pos hd]
  refine ⟨h1, h1.trans h2.symm, ?_⟩
  rw [h1]
  rfl

/-- Witness for C9 at two concrete records and the finite amount 1000000. -/
theorem unbounded_min_is_positive_infinity_witness :
    (AmountConstraints.mkDefault 0).min_amount = ExtInt.inf ∧
    (AmountConstraints.mkDefault 0).min_amount =
      (AmountConstraints.mk 1 5 (-1)).max_amount ∧
    ExtInt.blt (ExtInt.fin 1000000)
      (AmountConstraints.mkDefault 0).min_amount = true :=
  unbounded_min_is_positive_infinity (AmountConstraints.mkDefault 0)
    (AmountConstraints.mk 1 5 (-1)) 1000000 (by decide) (by decide)

/-- C1 counterexample: at the concrete record whose stored `_min_amount` is
`-5`, the stored field differs from `-1`, yet the accessor returns
infinity rather than the stored value, refuting the claim as stated. -/
theorem min_amount_sentinel_only_refuted :
    ((AmountConstraints.mk 0 (-5) (-1))._min_amount == -1) = false ∧
    AmountConstraints.min_amount (AmountConstraints.mk 0 (-5) (-1)) =
      ExtInt.inf ∧
    (AmountConstraints.min_amount (AmountConstraints.mk 0 (-5) (-1)) ==
      ExtInt.fin (-5)) = false := by
  decide

/-- C1 amended: each accessor returns infinity exactly when its stored field
is negative (the sentinel `-1` included) and the stored value when the
field is nonnegative. -/
theorem min_max_amount_accessor_of_sign (c : AmountConstraints) :
    (c._min_amount = -1 → c.min_amount = ExtInt.inf) ∧
    (c._min_amount < 0 → c.min_amount = ExtInt.inf) ∧
    (0 ≤ c._min_amount → c.min_amount = ExtInt.fin c._min_amount) ∧
    (c._max_amount = -1 → c.max_amount = ExtInt.inf) ∧
    (c._max_amount < 0 → c.max_amount = ExtInt.inf) ∧
    (0 ≤ c._max_amount → c.max_amount = ExtInt.fin c._max_amount) := by
  refine ⟨fun h => ?_, fun h => ?_, fun h => ?_, fun h => ?_, fun h => ?_,
    fun h => ?_⟩ <;>
    simp only [AmountConstraints.min_amount, AmountConstraints.max_amount] <;>
    split <;>
    first
      | rfl
      | (exfalso; omega)

/-- Witness for the amended C1 at the concrete record storing `-1` and `7`. -/
theorem min_max_amount_accessor_of_sign_witness :
    (AmountConstraints.mk 0 (-1) 7).min_amount = ExtInt.inf ∧
    (AmountConstraints.mk 0 (-1) 7).max_amount = ExtInt.fin 7 :=
  ⟨(min_max_amount_accessor_of_sign (AmountConstraints.mk 0 (-1) 7)).1 rfl,
    (min_max_amount_accessor_of_sign
      (AmountConstraints.mk 0 (-1) 7)).2.2.2.2.2 (by decide)⟩

/-- C2 counterexample: writing the finite value `-5` through the minimum
setter stores `-5`, but reading the accessor afterwards returns infinity,
not `-5`, refuting the set-then-get round trip as stated. -/
theorem set_then_get_identity_refuted :
    (AmountConstraints.set_min_amount (AmountConstraints.mkDefault 0)
        (ExtInt.fin (-5)))._min_amount = -5 ∧
    AmountConstraints.min_amount
      (AmountConstraints.set_min_amount (AmountConstraints.mkDefault 0)
        (ExtInt.fin (-5))) = ExtInt.inf ∧
    (AmountConstraints.min_amount
        (AmountConstraints.set_min_amount (AmountConstraints.mkDefault 0)
          (ExtInt.fin (-5))) == ExtInt.fin (-5)) = false := by
  decide

/-- C2 amended: set-then-get round-trips every nonnegative finite value; an
infinite value is stored as the sentinel `-1` and read back as infinity;
a negative finite value is stored verbatim but also read back as
infinity. -/
theorem set_then_get_normalised (c : AmountConstraints) (n : Int) :
    (0 ≤ n →
      (c.set_min_amount (ExtInt.fin n)).min_amount = ExtInt.fin n ∧
      (c.set_max_amount (ExtInt.fin n)).max_amount = ExtInt.fin n) ∧
    ((c.set_min_amount ExtInt.inf)._min_amount = -1 ∧
      (c.set_max_amount ExtInt.inf)._max_amount = -1 ∧
      (c.set_min_amount ExtInt.inf).min_amount = ExtInt.inf ∧
      (c.set_max_amount ExtInt.inf).max_amount = ExtInt.inf) ∧
    (n < 0 →
      (c.set_min_amount (ExtInt.fin n))._min_amount = n ∧
      (c.set_min_amount (ExtInt.fin n)).min_amount = ExtInt.inf ∧
      (c.set_max_amount (ExtInt.fin n))._max_amount = n ∧
      (c.set_max_amount (ExtInt.fin n)).max_amount = ExtInt.inf) := by
  refine ⟨fun h => ⟨?_, ?_⟩, ⟨rfl, rfl, rfl, rfl⟩,
    fun h => ⟨rfl, ?_, rfl, ?_⟩⟩ <;>
    simp only [AmountConstraints.set_min_amount, AmountConstraints.set_max_amount,
      AmountConstraints.min_amount, AmountConstraints.max_amount] <;>
    split <;>
    first
      | rfl
      | (exfalso; omega)

/-- Witness for the amended C2 at the concrete values 3 and -4. -/
theorem set_then_get_normalised_witness :
    ((AmountConstraints.mkDefault 0).set_min_amount
        (ExtInt.fin 3)).min_amount = ExtInt.fin 3 ∧
    ((AmountConstraints.mkDefault 0).set_min_amount
        (ExtInt.fin (-4))).min_amount = ExtInt.inf :=
  ⟨((set_then_get_normalised (AmountConstraints.mkDefault 0) 3).1
      (by decide)).1,
    ((set_then_get_normalised (AmountConstraints.mkDefault 0) (-4)).2.2
      (by decide)).2.1⟩

/-- C3: the declared choices of the `direction` field admit exactly the two
values `-1` (Out) and `+1` (In) and no other integer. -/
theorem direction_choices_pm_one (d : Int) :
    validDirection d = true ↔ (d = -1 ∨ d = 1) := by
  simp only [validDirection, TYPES, List.any_cons, List.any_nil,
    Bool.or_eq_true, beq_iff_eq]
  constructor
  · rintro (h | h | h)
    · exact Or.inl h.symm
    · exact Or.inr h.symm
    · exact absurd h (by simp)
  · rintro (h | h)
    · exact Or.inl h.symm
    · exact Or.inr (Or.inl h.symm)

/-- Witness for C3: the theorem applied at the concrete directions 1 and 0. -/
theorem direction_choices_pm_one_witness :
    validDirection 1 = true ∧ validDirection 0 = false := by
  refine ⟨(direction_choices_pm_one 1).mpr (Or.inr rfl), ?_⟩
  by_contra h
  rcases (direction_choices_pm_one 0).mp (by revert h; decide) with h0 | h0 <;>
    exact absurd h0 (by decide)

/-- C4: the signed inventory delta of a movement is the document type's
direction times the amount, so an In type (direction `+1`) adds the amount
and an Out type (direction `-1`) subtracts it. -/
theorem signed_delta_is_direction_mul (d : DocumentType) (amount : Int) :
    signedDelta d amount = d.direction * amount ∧
    (d.direction = 1 → signedDelta d amount = amount) ∧
    (d.direction = -1 → signedDelta d amount = -amount) := by
  refine ⟨rfl, fun h => ?_, fun h => ?_⟩ <;> simp [signedDelta, h]

/-- Witness for C4 at two concrete document types and the amount 5. -/
theorem signed_delta_is_direction_mul_witness :
    signedDelta (DocumentType.mk "Receipt" 1) 5 = 5 ∧
    signedDelta (DocumentType.mk "Shipment" (-1)) 5 = -5 :=
  ⟨(signed_delta_is_direction_mul (DocumentType.mk "Receipt" 1) 5).2.1 rfl,
    (signed_delta_is_direction_mul
      (DocumentType.mk "Shipment" (-1)) 5).2.2 rfl⟩

/-- C10: the string representation of a `DocumentType` is defined exactly for
directions `-1` and `+1`; for those it is the name followed by the
matching label, and for any other direction the lookup fails. -/
theorem document_type_str_total_on_choices (d : DocumentType) :
    ((d.str).isSome = true ↔ (d.direction = -1 ∨ d.direction = 1)) ∧
    (d.direction = -1 → d.str = some (d.name ++ " " ++ "Out")) ∧
    (d.direction = 1 → d.str = some (d.name ++ " " ++ "In")) ∧
    (d.direction ≠ -1 → d.direction ≠ 1 → d.str = none) := by
  by_cases h1 : d.direction = -1
  · simp [DocumentType.str, TYPES, List.find?, h1]
  · by_cases h2 : d.direction = 1
    · simp [DocumentType.str, TYPES, List.find?, h1, h2]
    · have e1 : ((-1 : Int) == d.direction) = false := by
        rw [beq_eq_false_iff_ne]
        exact fun h => h1 h.symm
      have e2 : ((1 : Int) == d.direction) = false := by
        rw [beq_eq_false_iff_ne]
        exact fun h => h2 h.symm
      simp [DocumentType.str, TYPES, List.find?, e1, e2, h1, h2]

/-- Witness for C10 at concrete document types of directions -1 and 7. -/
theorem document_type_str_total_on_choices_witness :
    (DocumentType.mk "Shipment" (-1)).str =
      some ("Shipment" ++ " " ++ "Out") ∧
    (DocumentType.mk "Broken" 7).str = none :=
  ⟨(document_type_str_total_on_choices
      (DocumentType.mk "Shipment" (-1))).2.1 rfl,
    (document_type_str_total_on_choices (DocumentType.mk "Broken" 7)).2.2.2
      (by decide) (by decide)⟩

/-- C6: inserting into a table whose part numbers are pairwise distinct keeps
them pairwise distinct, and inserting an asset whose part number is
already used fails. -/
theorem part_number_unique_insert (db db2 : List MaterialAsset)
    (a : MaterialAsset) (hdb : distinctPartNumbers db = true) :
    (insertAsset db a = some db2 → distinctPartNumbers db2 = true) ∧
    (db.any (fun b => b.part_number == a.part_number) = true →
      insertAsset db a = none) := by
  constructor
  · intro hins
    by_cases h : db.any (fun b => b.part_number == a.part_number) = true
    · simp [insertAsset, h] at hins
    · have hfalse : db.any (fun b => b.part_number == a.part_number) = false :=
        Bool.eq_false_iff.mpr h
      have hdb2 : db2 = a :: db := by
        simp [insertAsset, hfalse] at hins
        exact hins.symm
      subst hdb2
      simp [distinctPartNumbers, hfalse, hdb]
  · intro h
    simp [insertAsset, h]

/-- Witness for C6: a successful insert of a fresh part number keeps the
table distinct, and an insert reusing part number PN1 fails. -/
theorem part_number_unique_insert_witness :
    distinctPartNumbers
      [MaterialAsset.mk "PN2" "Nut" 0, MaterialAsset.mk "PN1" "Bolt" 0] =
        true ∧
    insertAsset [MaterialAsset.mk "PN1" "Bolt" 0]
      (MaterialAsset.mk "PN1" "Nut" 0) = none :=
  ⟨(part_number_unique_insert [MaterialAsset.mk "PN1" "Bolt" 0]
      [MaterialAsset.mk "PN2" "Nut" 0, MaterialAsset.mk "PN1" "Bolt" 0]
      (MaterialAsset.mk "PN2" "Nut" 0) (by decide)).1 (by decide),
    (part_number_unique_insert [MaterialAsset.mk "PN1" "Bolt" 0] []
      (MaterialAsset.mk "PN1" "Nut" 0) (by decide)).2 (by decide)⟩

/-- C7: in well-formed warehouse and contractor-group tables, every node's
parent, when present, resolves to a node of the same table, and a node
without a parent is a root; this holds for both hierarchies. -/
theorem hierarchy_parent_resolves (wdb : List Warehouse)
    (cdb : List ContractorGroup) (hw : warehouseWellFormed wdb = true)
    (hc : contractorGroupWellFormed cdb = true) :
    (∀ w, w ∈ wdb →
      (∀ p, w.parent = some p → ∃ v, v ∈ wdb ∧ v.id = p) ∧
      (w.parent = none → w.isRoot = true)) ∧
    (∀ g, g ∈ cdb →
      (∀ p, g.parent = some p → ∃ v, v ∈ cdb ∧ v.id = p) ∧
      (g.parent = none → g.isRoot = true)) := by
  constructor
  · intro w hmem
    have h1 := List.all_eq_true.mp hw w hmem
    refine ⟨fun p hp => ?_, fun hp => ?_⟩
    · rw [hp] at h1
      obtain ⟨v, hv, hvp⟩ := List.any_eq_true.mp h1
      exact ⟨v, hv, by simpa using hvp⟩
    · simp [Warehouse.isRoot, hp]
  · intro g hmem
    have h1 := List.all_eq_true.mp hc g hmem
    refine ⟨fun p hp => ?_, fun hp => ?_⟩
    · rw [hp] at h1
      obtain ⟨v, hv, hvp⟩ := List.any_eq_true.mp h1
      exact ⟨v, hv, by simpa using hvp⟩
    · simp [ContractorGroup.isRoot, hp]

/-- Witness for C7 at a concrete two-node warehouse table and a one-node
contractor-group table: the parentless nodes are roots. -/
theorem hierarchy_parent_resolves_witness :
    (Warehouse.mk 0 "Main" none).isRoot = true ∧
    (ContractorGroup.mk 0 "Suppliers" none).isRoot = true :=
  ⟨((hierarchy_parent_resolves
        [Warehouse.mk 0 "Main" none, Warehouse.mk 1 "Shelf" (some 0)]
        [ContractorGroup.mk 0 "Suppliers" none] (by decide) (by decide)).1
      (Warehouse.mk 0 "Main" none) (by simp)).2 rfl,
    ((hierarchy_parent_resolves
        [Warehouse.mk 0 "Main" none, Warehouse.mk 1 "Shelf" (some 0)]
        [ContractorGroup.mk 0 "Suppliers" none] (by decide) (by decide)).2
      (ContractorGroup.mk 0 "Suppliers" none) (by simp)).2 rfl⟩

end PDM
